import Mathlib

/-!
Shallow embedding of the value-level logic of the `victron_vrm_api`
Home Assistant integration (files `sensor.py` and `const.py`).

JSON values and Python runtime values are modelled by the inductive type
`JVal`; Python `None` and JSON `null` are both `JVal.null` (they are the
same object in the running program, since `json` decodes `null` to `None`).
Numbers are modelled as exact rationals: the claims under study are about
which fields are selected, combined and defaulted, not about IEEE-754
representation error, so `float`/`int` both become `ℚ` (Python `bool` is
kept separate because `isinstance(True, int)` matters in one place).
A raised Python exception that is *not* caught inside the modelled function
is `Except.error ()`; a returned value `v` is `Except.ok v`.
-/

/-- JSON / Python runtime values: `null`/`None`, booleans, numbers (exact
rationals), strings, lists and dicts (association lists with the insertion
order of the JSON text; dict keys are unique in any value produced by the
`json` parser). -/
inductive JVal where
  | null : JVal
  | b : Bool → JVal
  | num : ℚ → JVal
  | str : String → JVal
  | arr : List JVal → JVal
  | obj : List (String × JVal) → JVal

/-- Python truthiness (`bool(x)`): `None`/`False`/`0`/`""`/`[]`/`{}` are falsy. -/
def JVal.truthy : JVal → Bool
  | .null => false
  | .b x => x
  | .num q => !(q == 0)
  | .str s => !(s == "")
  | .arr xs => !xs.isEmpty
  | .obj kvs => !kvs.isEmpty

/-- Is this value Python `None` (= JSON `null`)? -/
def JVal.isNull : JVal → Bool
  | .null => true
  | _ => false

/-- Is this value a dict? -/
def JVal.isObj : JVal → Bool
  | .obj _ => true
  | _ => false

/-- First association for a key in a dict's entry list (dict keys produced by
the JSON parser are unique, so first = only). -/
def alookup : List (String × JVal) → String → Option JVal
  | [], _ => none
  | (k, v) :: rest, key => if k = key then some v else alookup rest key

/-- Python `d.get(key, default)`: only dicts have `.get`; on any other
receiver the attribute access raises (`AttributeError`). -/
def pyGetD : JVal → String → JVal → Except Unit JVal
  | .obj kvs, k, d => .ok ((alookup kvs k).getD d)
  | _, _, _ => .error ()

/-- Python `d.get(key)` (default `None`). -/
def pyGet (j : JVal) (k : String) : Except Unit JVal :=
  pyGetD j k .null

/-- Python `d[key]` with a string key: dict lookup (`KeyError` when the key is
absent); on a list, string, number, boolean or `None` receiver it raises
(`TypeError`). -/
def pySubscript : JVal → String → Except Unit JVal
  | .obj kvs, k =>
    match alookup kvs k with
    | some v => .ok v
    | none => .error ()
  | _, _ => .error ()

/-- Is `pat` a leading segment of `cs`? (helper for Python's substring test). -/
def leadsWith : List Char → List Char → Bool
  | [], _ => true
  | _ :: _, [] => false
  | p :: ps, c :: cs => p == c && leadsWith ps cs

/-- Does `cs` contain `pat` as a contiguous segment? -/
def hasSegment (pat : List Char) : List Char → Bool
  | [] => leadsWith pat []
  | c :: cs => leadsWith pat (c :: cs) || hasSegment pat cs

/-- Python `key in x` for a string `key`: key membership on dicts, element
equality on lists (a string equals only an equal string), substring test on
strings; on numbers, booleans and `None` the membership test raises
(`TypeError: argument ... is not iterable`). -/
def pyContains : JVal → String → Except Unit Bool
  | .obj kvs, key => .ok (kvs.any (fun kv => kv.1 == key))
  | .arr xs, key => .ok (xs.any (fun v => match v with
      | .str s => s == key
      | _ => false))
  | .str s, key => .ok (hasSegment key.toList s.toList)
  | _, _ => .error ()

/-- Round to nearest integer, ties to even (Python `round` on exact halves). -/
def roundHalfEven (q : ℚ) : ℤ :=
  let f : ℤ := ⌊q⌋
  let r : ℚ := q - f
  if r < 1 / 2 then f
  else if 1 / 2 < r then f + 1
  else if f % 2 = 0 then f else f + 1

/-- Python `round(q, n)` on the exact-rational model of floats. -/
def pyRoundTo (n : ℕ) (q : ℚ) : ℚ :=
  (roundHalfEven (q * 10 ^ n) : ℚ) / 10 ^ n

/-- Numeric view used for Python arithmetic: `int`/`float` are numbers and
`bool` is a number (`True == 1`, `False == 0`); everything else is
non-numeric. -/
def toNum? : JVal → Option ℚ
  | .num q => some q
  | .b true => some 1
  | .b false => some 0
  | _ => none

/-- Python `x == n` for an `int` literal `n`: numbers (and booleans) compare
by value, every other type compares unequal. -/
def pyEqInt (j : JVal) (n : ℤ) : Bool :=
  match toNum? j with
  | some q => q == (n : ℚ)
  | none => false

/-!
`VrmDataCoordinator._async_update_data` (sensor.py lines 64-101).

The single `session.get` of one poll is modelled by a responder function
applied to the request the code builds; its outcome is either a transport
failure (`aiohttp.ClientError`), or a response with a status code and a
body that either parses as JSON or not.  Raising `UpdateFailed` is
`Except.error ()` (both `except` arms re-raise `UpdateFailed`).
-/

/-- Outcome of the one `session.get` of a poll: a client/network error, or a
response carrying a status and (for non-204 paths) a body, `none` standing
for a body on which `response.json()` raises. -/
inductive HttpResult where
  | clientError : HttpResult
  | response : ℕ → Option JVal → HttpResult

/-- Shape normalization applied to a decoded 200 body (sensor.py lines
81-94): return the object unchanged when it has `"totals"`; else return
`data["records"]` when `"records" in data and "devices" in data["records"]`;
else return `data["records"]` when `"records" in data`; else return the
value unchanged.  Membership tests on non-container values raise, and the
`except Exception` arm turns that into `UpdateFailed` (= `.error ()`). -/
def normalizeData (data : JVal) : Except Unit JVal := do
  let hasTotals ← pyContains data "totals"
  if hasTotals then return data
  let hasRecords ← pyContains data "records"
  if hasRecords then
    let recs ← pySubscript data "records"
    let hasDevices ← pyContains recs "devices"
    if hasDevices then return recs
  let hasRecords2 ← pyContains data "records"
  if hasRecords2 then return (← pySubscript data "records")
  return data

/-- `_async_update_data` as a function of the HTTP outcome: status outside
`(200, 204)` raises `UpdateFailed`; 204 returns `None`; a 200 body that fails
to decode raises (caught, re-raised as `UpdateFailed`); a decoded 200 body is
shape-normalized (normalization errors also become `UpdateFailed`). -/
def updateData : HttpResult → Except Unit (Option JVal)
  | .clientError => .error ()
  | .response status body =>
    if status ≠ 200 ∧ status ≠ 204 then .error ()
    else if status = 204 then .ok none
    else
      match body with
      | none => .error ()
      | some data => (normalizeData data).map some

/-- The request a poll issues, as built at sensor.py lines 66-71:
one GET `url` with header `X-Authorization: Token <token>` and `timeout=15`. -/
structure VrmRequest where
  url : String
  authHeaderName : String
  authHeaderValue : String
  timeoutSeconds : ℕ
  deriving DecidableEq

/-- The fixed API base URL (`self.base_url`, sensor.py line 55). -/
def vrmBaseUrl : String := "https://vrmapi.victronenergy.com/v2/installations/"

/-- The request built from the coordinator's site id, token and endpoint. -/
def buildVrmRequest (siteId token endpoint : String) : VrmRequest :=
  { url := vrmBaseUrl ++ siteId ++ "/" ++ endpoint
  , authHeaderName := "X-Authorization"
  , authHeaderValue := "Token " ++ token
  , timeoutSeconds := 15 }

/-- One poll: build the single request, hand it to the transport, and map the
outcome through `updateData`.  The source is straight-line code with one
`session.get` and no loop, so a poll consumes exactly one response by
construction. -/
def pollOnce (siteId token endpoint : String)
    (respond : VrmRequest → HttpResult) : Except Unit (Option JVal) :=
  updateData (respond (buildVrmRequest siteId token endpoint))

/-!
Battery sensors (sensor.py sections 6, 6.5 and 6.5.6).  Each sensor reads
`self.coordinator.data`, passed here as the `coordData` argument.
-/

/-- `VrmBatterySummarySensor.native_value` (sensor.py lines 900-906): `None`
when the coordinator data is falsy, else
`coordinator.data.get("data", {}).get(data_id, {}).get("valueFloat")`. -/
def batterySummaryNativeValue (coordData : JVal) (dataId : String) :
    Except Unit JVal :=
  if coordData.truthy then do
    let data ← pyGetD coordData "data" (.obj [])
    let attr ← pyGetD data dataId (.obj [])
    pyGet attr "valueFloat"
  else .ok .null

/-- `VrmBatteryPowerSensor.native_value` (sensor.py lines 955-968): `0.0`
when the coordinator data is falsy; extract `valueFloat` of attribute ids
`"47"` and `"49"`; `0.0` when either is `None`; else `round(v * i, 2)`,
where a `TypeError`/`ValueError` from non-numeric operands is caught and
yields `0.0`.  (On `JVal`, `round(voltage * current, 2)` succeeds exactly
when both operands are numbers or booleans: every other combination raises
`TypeError` either at `*` or at `round`, e.g. `str * int` repeats the string
and `round` then rejects it.) -/
def batteryPowerNativeValue (coordData : JVal) : Except Unit JVal :=
  if coordData.truthy then do
    let data ← pyGetD coordData "data" (.obj [])
    let voltage ← pyGet (← pyGetD data "47" (.obj [])) "valueFloat"
    let current ← pyGet (← pyGetD data "49" (.obj [])) "valueFloat"
    if voltage.isNull || current.isNull then .ok (.num 0)
    else
      match toNum? voltage, toNum? current with
      | some v, some i => .ok (.num (pyRoundTo 2 (v * i)))
      | _, _ => .ok (.num 0)
  else .ok (.num 0)

/-- The loop body of `VrmBatteriesTotalPowerSensor.native_value` (sensor.py
lines 1030-1040), as accumulator recursion over the coordinator data values:
skip falsy coordinator data; extract the two `valueFloat`s; skip when either
is `None`; else `total_power += voltage * current` and `has_data = True`.
The `+=` is *not* inside a `try`, so non-numeric operands raise out of the
property (`.error ()`). -/
def battTotalLoop : List JVal → ℚ → Bool → Except Unit (ℚ × Bool)
  | [], total, hasData => .ok (total, hasData)
  | c :: rest, total, hasData =>
    if c.truthy then do
      let data ← pyGetD c "data" (.obj [])
      let voltage ← pyGet (← pyGetD data "47" (.obj [])) "valueFloat"
      let current ← pyGet (← pyGetD data "49" (.obj [])) "valueFloat"
      if voltage.isNull || current.isNull then battTotalLoop rest total hasData
      else
        match toNum? voltage, toNum? current with
        | some v, some i => battTotalLoop rest (total + v * i) true
        | _, _ => .error ()
    else battTotalLoop rest total hasData

/-- `VrmBatteriesTotalPowerSensor.native_value` (sensor.py lines 1024-1045):
run the loop over all battery-summary coordinator data values; `0.0` when no
coordinator contributed, else `round(total_power, 2)`. -/
def batteriesTotalPowerNativeValue (coords : List JVal) : Except Unit ℚ := do
  let (total, hasData) ← battTotalLoop coords 0 false
  if hasData then .ok (pyRoundTo 2 total) else .ok 0

/-- `VrmOverallStatsSensor.native_value` path walk (sensor.py lines
1315-1317): `value = value[key]` for each key of the data path; `none` when
a step raises (`KeyError` on a dict missing the key, `TypeError` on a
non-dict). -/
def walkPath : JVal → List String → Option JVal
  | v, [] => some v
  | v, k :: rest =>
    match v with
    | .obj kvs =>
      match alookup kvs k with
      | some w => walkPath w rest
      | none => none
    | _ => none

/-!
Python numeric-literal parsing, used by `int(part)` in `_parse_instance_ids`
and `float(val)` in the grid and overall-stats sensors.  Digit groups follow
CPython: at least one digit, `_` allowed only between digits.  Only ASCII
digits and finite decimal/exponent literals are modelled (`"inf"`/`"nan"`
have no rational value, and non-ASCII decimal digits do not occur in this
API's data).
-/

/-- A valid CPython digit group: nonempty, digits with `_` only between
digits (no leading, trailing or doubled underscore). -/
def pyDigitsOk : List Char → Bool
  | [] => false
  | [c] => c.isDigit
  | c :: '_' :: rest => c.isDigit && pyDigitsOk rest
  | c :: rest => c.isDigit && pyDigitsOk rest

/-- Numeric value of a digit group, ignoring underscores. -/
def digitsToNat (cs : List Char) : ℕ :=
  cs.foldl (fun a c => if c.isDigit then a * 10 + (c.toNat - 48) else a) 0

/-- Number of actual digits in a (possibly underscored) digit group. -/
def digitCount (cs : List Char) : ℕ :=
  (cs.filter (fun c => c.isDigit)).length

/-- Is this one of the ASCII whitespace characters removed by Python's
`str.strip()` (space, tab, newline, carriage return, vertical tab, form
feed)?  Non-ASCII whitespace is not modelled; it does not occur in this
integration's configuration strings. -/
def pyIsSpace (c : Char) : Bool :=
  c = ' ' || c = '\t' || c = '\n' || c = '\r' || c = '\x0b' || c = '\x0c'

/-- Python `s.strip()` on a character list: drop whitespace from both ends. -/
def pyStrip (cs : List Char) : List Char :=
  ((cs.dropWhile pyIsSpace).reverse.dropWhile pyIsSpace).reverse

/-- Python `s.split(',')` on a character list: the comma-separated pieces,
keeping empty pieces (`"".split(',') == ['']`). -/
def pySplitComma : List Char → List (List Char)
  | [] => [[]]
  | c :: cs =>
    if c = ',' then [] :: pySplitComma cs
    else
      match pySplitComma cs with
      | t :: ts => (c :: t) :: ts
      | [] => [[c]]

/-- Python `int(s)` on a character list: strip whitespace (as `int` itself
does), then an optional sign and one valid digit group; `none` models
`ValueError`. -/
def pyParseIntTok? (cs : List Char) : Option ℤ :=
  match pyStrip cs with
  | '+' :: rest => if pyDigitsOk rest then some (digitsToNat rest) else none
  | '-' :: rest => if pyDigitsOk rest then some (-(digitsToNat rest : ℤ)) else none
  | ds => if pyDigitsOk ds then some (digitsToNat ds) else none

/-- Python `int(s)` on a string. -/
def pyParseInt? (s : String) : Option ℤ :=
  pyParseIntTok? s.toList

/-- Split a character list at the first character satisfying `p`; the second
component is `none` when no such character occurs. -/
def splitAtChar (p : Char → Bool) : List Char → List Char × Option (List Char)
  | [] => ([], none)
  | c :: cs =>
    if p c then ([], some cs)
    else
      let r := splitAtChar p cs
      (c :: r.1, r.2)

/-- Unsigned part of a Python float literal: `digits`, `digits.`, `.digits`,
`digits.digits`, optionally followed by `e`/`E`, an optional sign and a
digit group. -/
def parseUnsignedFloat? (cs : List Char) : Option ℚ :=
  let em := splitAtChar (fun c => c == 'e' || c == 'E') cs
  let mantissa? : Option ℚ :=
    match splitAtChar (fun c => c == '.') em.1 with
    | (ip, none) => if pyDigitsOk ip then some ((digitsToNat ip : ℚ)) else none
    | (ip, some fp) =>
      if (ip.isEmpty || pyDigitsOk ip) && (fp.isEmpty || pyDigitsOk fp)
          && !(ip.isEmpty && fp.isEmpty) then
        some ((digitsToNat ip : ℚ) + (digitsToNat fp : ℚ) / 10 ^ digitCount fp)
      else none
  match mantissa?, em.2 with
  | none, _ => none
  | some m, none => some m
  | some m, some es =>
    let se : ℤ × List Char :=
      match es with
      | '+' :: rest => (1, rest)
      | '-' :: rest => (-1, rest)
      | _ => (1, es)
    if pyDigitsOk se.2 then some (m * 10 ^ (se.1 * (digitsToNat se.2 : ℤ)))
    else none

/-- Python `float(s)` on a string: strip whitespace, optional sign, then an
unsigned float literal; `none` models `ValueError`. -/
def pyFloatOfString? (s : String) : Option ℚ :=
  match pyStrip s.toList with
  | '+' :: rest => parseUnsignedFloat? rest
  | '-' :: rest => (parseUnsignedFloat? rest).map (fun q => -q)
  | cs => parseUnsignedFloat? cs

/-- Python `float(x)` on a JSON value: numbers pass through, booleans become
0/1, strings are parsed; `None`, lists and dicts raise (`none` models the
raised `TypeError`/`ValueError`). -/
def pyFloat? : JVal → Option ℚ
  | .num q => some q
  | .b true => some 1
  | .b false => some 0
  | .str s => pyFloatOfString? s
  | _ => none

/-- `VrmOverallStatsSensor.native_value` (sensor.py lines 1310-1324): `None`
when the coordinator data is falsy; walk the data path; return numbers and
booleans as they are (`isinstance(True, int)` holds) and `float(value)` for
strings; `None` for other final values; any `KeyError`/`TypeError` during
the walk, or `ValueError` from `float`, yields `0.0`. -/
def overallStatsNativeValue (coordData : JVal) (path : List String) : JVal :=
  if coordData.truthy then
    match walkPath coordData path with
    | none => .num 0
    | some v =>
      match v with
      | .num q => .num q
      | .b x => .b x
      | .str s =>
        match pyFloatOfString? s with
        | some q => .num q
        | none => .num 0
      | _ => .null
  else .null


/-!
`_parse_instance_ids` (sensor.py lines 105-120) and the constants module.
-/

/-- The qualifying value of one comma-separated token: `int(part.strip())`
when it parses and is `>= 0`, else `none` (parse failures are logged and
skipped, negative ids are not added).  The strip is subsumed by
`pyParseIntTok?`, which strips as Python `int` itself does. -/
def instanceIdOfToken? (part : List Char) : Option ℤ :=
  match pyParseIntTok? part with
  | some n => if 0 ≤ n then some n else none
  | none => none

/-- `_parse_instance_ids`: `[]` for the falsy (empty) string; otherwise split
on `','`, collect the qualifying values into a set, and return
`sorted(list(ids))` — modelled as deduplication followed by an ascending
sort. -/
def pyParseInstanceIds (configString : String) : List ℤ :=
  if configString = "" then []
  else
    (((pySplitComma configString.toList).filterMap
        instanceIdOfToken?).dedup).mergeSort
      (fun a b => a ≤ b)

/-- The names bound at module level by
`custom_components/victron_vrm_api/const.py` (its complete toplevel). -/
def constDefinedNames : List String :=
  [ "DOMAIN"
  , "CONF_SITE_ID"
  , "CONF_TOKEN"
  , "CONF_BATTERY_INSTANCE"
  , "CONF_MULTI_INSTANCE"
  , "CONF_PV_INVERTER_INSTANCE"
  , "CONF_TANK_INSTANCE"
  , "CONF_SOLAR_CHARGER_INSTANCE"
  , "DEFAULT_SCAN_INTERVAL_BATTERY"
  , "DEFAULT_SCAN_INTERVAL_MULTI"
  , "DEFAULT_SCAN_INTERVAL_PV_INVERTER"
  , "DEFAULT_SCAN_INTERVAL_TANK"
  , "DEFAULT_SCAN_INTERVAL_SOLAR_CHARGER"
  , "DEFAULT_SCAN_INTERVAL_OVERALL" ]

/-- The names `sensor.py` lines 23-41 demand from `.const` (the full
`from .const import (...)` list). -/
def sensorRequiredConstNames : List String :=
  [ "DOMAIN"
  , "CONF_SITE_ID"
  , "CONF_TOKEN"
  , "CONF_BATTERY_INSTANCE"
  , "CONF_MULTI_INSTANCE"
  , "CONF_PV_INVERTER_INSTANCE"
  , "CONF_TANK_INSTANCE"
  , "CONF_SOLAR_CHARGER_INSTANCE"
  , "CONF_GRID_INSTANCE"
  , "DEFAULT_SCAN_INTERVAL_BATTERY"
  , "DEFAULT_SCAN_INTERVAL_OVERALL"
  , "DEFAULT_SCAN_INTERVAL_MULTI"
  , "DEFAULT_SCAN_INTERVAL_PV_INVERTER"
  , "DEFAULT_SCAN_INTERVAL_TANK"
  , "DEFAULT_SCAN_INTERVAL_SOLAR_CHARGER"
  , "DEFAULT_SCAN_INTERVAL_SYSTEM_OVERVIEW"
  , "DEFAULT_SCAN_INTERVAL_DIAGNOSTICS" ]

/-!
`VrmGridTotalPowerSensor.native_value` (sensor.py lines 1545-1580).
-/

/-- The loop body over diagnostics records, as accumulator recursion: skip
records whose `instance` differs from the sensor's grid instance id; for a
matching record whose `idDataAttribute` is 379/380/381, `float(rawValue)`
assigns the corresponding phase accumulator and sets `has_data` (a
`TypeError`/`ValueError` from `float` is caught and the record skipped).
`item.get` on a non-dict record raises out of the property. -/
def gridLoop (gid : ℤ) :
    List JVal → ℚ → ℚ → ℚ → Bool → Except Unit (ℚ × ℚ × ℚ × Bool)
  | [], l1, l2, l3, hasData => .ok (l1, l2, l3, hasData)
  | item :: rest, l1, l2, l3, hasData => do
    let inst ← pyGet item "instance"
    if pyEqInt inst gid then do
      let attrId ← pyGet item "idDataAttribute"
      if pyEqInt attrId 379 || pyEqInt attrId 380 || pyEqInt attrId 381 then do
        let val ← pyGet item "rawValue"
        match pyFloat? val with
        | some q =>
          gridLoop gid rest
            (if pyEqInt attrId 379 then q else l1)
            (if pyEqInt attrId 380 then q else l2)
            (if pyEqInt attrId 381 then q else l3)
            true
        | none => gridLoop gid rest l1 l2 l3 hasData
      else gridLoop gid rest l1 l2 l3 hasData
    else gridLoop gid rest l1 l2 l3 hasData

/-- `VrmGridTotalPowerSensor.native_value`: `0.0` for falsy coordinator data
and for non-list data; else run the loop over the records and return `0.0`
when nothing matched, else `round(l1 + l2 + l3, 2)`. -/
def gridTotalPowerNativeValue (gid : ℤ) (coordData : JVal) :
    Except Unit ℚ :=
  if coordData.truthy then
    match coordData with
    | .arr items => do
      let (l1, l2, l3, hasData) ← gridLoop gid items 0 0 0 false
      if hasData then .ok (pyRoundTo 2 (l1 + l2 + l3)) else .ok 0
    | _ => .ok 0
  else .ok 0

/-- Containers in the sense of Python's `in` operator for a string operand:
dicts, lists and strings support the membership test, every other value
makes it raise `TypeError`. -/
def JVal.isContainer : JVal → Bool
  | .obj _ => true
  | .arr _ => true
  | .str _ => true
  | _ => false

/-- The numeric `valueFloat` of one attribute of a data map, when the
attribute is present as a dict and carries a numeric `valueFloat`. -/
def vfNum? (m : List (String × JVal)) (i : String) : Option ℚ :=
  match alookup m i with
  | some (.obj a) =>
    match alookup a "valueFloat" with
    | some (.num q) => some q
    | _ => none
  | _ => none

/-- Claim-side description of one battery-summary coordinator's contribution
to `VrmBatteriesTotalPowerSensor` (claim C7): the product `voltage * current`
when the coordinator's data map carries numeric `valueFloat`s for both
attribute ids `"47"` and `"49"`, and no contribution otherwise (an absent
`"data"` key defaults to the empty map, exactly as in the code). -/
def claimBattPower? (c : JVal) : Option ℚ :=
  match c with
  | .obj kvs =>
    match (alookup kvs "data").getD (.obj []) with
    | .obj m =>
      match vfNum? m "47", vfNum? m "49" with
      | some v, some i => some (v * i)
      | _, _ => none
    | _ => none
  | _ => none

/-- Shape of an extracted `valueFloat` that the total-power loop handles
without raising and without multiplying non-numbers: absent/`null`, or a
number. -/
def vfShape : JVal → Bool
  | .null => true
  | .num _ => true
  | _ => false

/-- One attribute of a battery-summary data map is benign when it is absent,
or is a dict whose `valueFloat` is absent, `null`, or a number: exactly the
shapes on which the total-power loop neither raises nor multiplies
non-numbers.  (`bool` `valueFloat`s would also multiply, but the API never
produces them and admitting them here would complicate the claim-side
product for no gain.) -/
def benignAttr (m : List (String × JVal)) (i : String) : Bool :=
  match (alookup m i).getD (.obj []) with
  | .obj a => vfShape ((alookup a "valueFloat").getD .null)
  | _ => false

/-- A battery-summary coordinator's data is benign when it is falsy, or is a
dict whose `"data"` entry (defaulted to `{}`) is a dict with benign `"47"`
and `"49"` attributes. -/
def benignBatt (c : JVal) : Bool :=
  if c.truthy then
    match c with
    | .obj kvs =>
      match (alookup kvs "data").getD (.obj []) with
      | .obj m => benignAttr m "47" && benignAttr m "49"
      | _ => false
    | _ => false
  else true

/-- Claim-side description of one diagnostics record's phase contribution
(claim C10): the parsed `rawValue` when the record's `instance` equals the
grid instance id and its `idDataAttribute` equals the given phase attribute
id and the `rawValue` parses as a number; nothing otherwise. -/
def phaseMatch (gid aid : ℤ) (item : JVal) : Option ℚ :=
  match item with
  | .obj kvs =>
    if pyEqInt ((alookup kvs "instance").getD .null) gid
        && pyEqInt ((alookup kvs "idDataAttribute").getD .null) aid then
      pyFloat? ((alookup kvs "rawValue").getD .null)
    else none
  | _ => none

/-- Claim-side value of one phase (claim C10): the parsed `rawValue` of the
LAST record in list order that matches the instance and phase attribute id,
later records overwriting earlier ones. -/
def lastPhase (gid aid : ℤ) : List JVal → Option ℚ
  | [] => none
  | item :: rest =>
    match lastPhase gid aid rest with
    | some q => some q
    | none => phaseMatch gid aid item

/-!
Helper lemmas shared by the claim theorems.
-/

/-- Bind on a successful `Except` computation continues with the value. -/
theorem exbind_ok {α β : Type} (a : α) (f : α → Except Unit β) :
    (Except.ok a >>= f : Except Unit β) = f a := rfl

/-- Bind on a failed `Except` computation stays failed. -/
theorem exbind_err {α β : Type} (f : α → Except Unit β) :
    (Except.error () >>= f : Except Unit β) = Except.error () := rfl

/-- A dict with a successful lookup is nonempty, hence truthy. -/
theorem truthy_of_lookup {kvs : List (String × JVal)} {k : String} {v : JVal}
    (h : alookup kvs k = some v) : JVal.truthy (.obj kvs) = true := by
  cases kvs with
  | nil => simp [alookup] at h
  | cons x xs => simp [JVal.truthy, List.isEmpty]

/-- The key-membership test of `pyContains` on a dict agrees with `alookup`. -/
theorem any_key_eq_alookup_isSome (kvs : List (String × JVal)) (k : String) :
    kvs.any (fun kv => kv.1 == k) = (alookup kvs k).isSome := by
  induction kvs with
  | nil => simp [alookup]
  | cons x xs ih =>
    cases x with
    | mk k' v =>
      by_cases h : k' = k <;> simp [alookup, h, ih]

/-- Pure on `Except` is `Except.ok`. -/
theorem expure {α : Type} (a : α) : (pure a : Except Unit α) = .ok a := rfl

/-- `pyContains` on a dict, phrased through `alookup`. -/
theorem pyContains_obj (kvs : List (String × JVal)) (k : String) :
    pyContains (.obj kvs) k = .ok (alookup kvs k).isSome := by
  simp [pyContains, any_key_eq_alookup_isSome]

/-!
Claim C1.
-/

/-- Claim C1 (amended): `_async_update_data` surfaces `UpdateFailed` exactly
when the transport raises a client error, or the response status is neither
200 nor 204, or the status is 200 and the body is malformed JSON or is a
JSON value on which shape normalization raises; a 204 response and a 200
response whose body decodes and normalizes both succeed.  (The original
claim's "non-2xx" boundary is wrong: the code only accepts 200 and 204, so
a 201 response fails — see the counterexample.) -/
theorem claim_c1_update_failed_iff :
    updateData .clientError = .error () ∧
    ∀ (status : ℕ) (body : Option JVal),
      (updateData (.response status body) = .error () ↔
        (status ≠ 200 ∧ status ≠ 204) ∨
        (status = 200 ∧ (body = none ∨
          ∃ d, body = some d ∧ normalizeData d = .error ()))) := by
  refine ⟨rfl, ?_⟩
  intro status body
  by_cases h200 : status = 200
  · subst h200
    cases body with
    | none => simp [updateData]
    | some d =>
      have hu : updateData (.response 200 (some d)) =
          (normalizeData d).map some := by
        simp [updateData]
      rw [hu]
      cases hn : normalizeData d with
      | ok v => simp [Except.map, hn]
      | error e => simp [Except.map, hn]
  · by_cases h204 : status = 204
    · subst h204
      cases body <;> simp [updateData, h200]
    · cases body <;> simp [updateData, h200, h204]

/-- Claim C1, counterexample to the original statement: status 201 is 2xx
and the body is well-formed JSON, yet the update fails. -/
theorem claim_c1_counterexample :
    (200 ≤ 201 ∧ 201 ≤ 299) ∧
    updateData (.response 201 (some (.obj [("x", .num 1)]))) = .error () :=
  ⟨by decide, rfl⟩

/-- Claim C1, witness: the amended theorem applied at a concrete failing
status. -/
theorem claim_c1_witness :
    updateData (.response 500 (some (.obj []))) = .error () :=
  (claim_c1_update_failed_iff.2 500 (some (.obj []))).2
    (Or.inl ⟨by decide, by decide⟩)

/-!
Claim C4.
-/

/-- Claim C4 (amended): for a JSON object decoded from a 200 response,
normalization returns the object unchanged when it contains `"totals"`;
otherwise, when it contains `"records"` and the value under `"records"`
supports Python's membership test (dict, list or string), that value is
returned whether or not it contains `"devices"`; when the value under
`"records"` is not such a container the membership test raises and the
update fails; otherwise the object is returned unchanged.  (The original
claim's "whether or not that value contains `"devices"`" is wrong for
scalar `"records"` values — see the counterexample.) -/
theorem claim_c4_normalize_shape (kvs : List (String × JVal)) :
    ((∃ v, alookup kvs "totals" = some v) →
        normalizeData (.obj kvs) = .ok (.obj kvs)) ∧
    (alookup kvs "totals" = none →
      ∀ r, alookup kvs "records" = some r → r.isContainer = true →
        normalizeData (.obj kvs) = .ok r) ∧
    (alookup kvs "totals" = none →
      ∀ r, alookup kvs "records" = some r → r.isContainer = false →
        normalizeData (.obj kvs) = .error ()) ∧
    (alookup kvs "totals" = none → alookup kvs "records" = none →
        normalizeData (.obj kvs) = .ok (.obj kvs)) := by
  refine ⟨?_, ?_, ?_, ?_⟩
  · rintro ⟨v, h⟩
    simp only [normalizeData, pyContains_obj, h, Option.isSome_some,
      exbind_ok, expure]
    simp
  · intro h r hr hc
    have base : ∀ (x : Bool), pyContains r "devices" = .ok x →
        normalizeData (.obj kvs) = .ok r := by
      intro x hx
      simp only [normalizeData, pyContains_obj, h, hr, Option.isSome_none,
        Option.isSome_some, exbind_ok, expure, pySubscript, hx]
      cases x <;> simp
    cases r with
    | obj o => exact base _ rfl
    | arr xs => exact base _ rfl
    | str s => exact base _ rfl
    | null => simp [JVal.isContainer] at hc
    | b x => simp [JVal.isContainer] at hc
    | num q => simp [JVal.isContainer] at hc
  · intro h r hr hc
    have hdev : pyContains r "devices" = .error () := by
      cases r <;> simp_all [pyContains, JVal.isContainer]
    simp only [normalizeData, pyContains_obj, h, hr, Option.isSome_none,
      Option.isSome_some, exbind_ok, expure, pySubscript, hdev, exbind_err]
    simp
  · intro h hr
    simp only [normalizeData, pyContains_obj, h, hr, Option.isSome_none,
      exbind_ok, expure]
    simp

/-- Claim C4, counterexample to the original statement: a 200 body
`{"records": 5}` has no `"totals"` and has `"records"`, so the claim says
the value `5` is returned; instead `"devices" in data["records"]` raises
`TypeError` and the update fails. -/
theorem claim_c4_counterexample :
    alookup [("records", JVal.num 5)] "totals" = none ∧
    alookup [("records", JVal.num 5)] "records" = some (.num 5) ∧
    updateData (.response 200 (some (.obj [("records", .num 5)]))) =
      .error () :=
  ⟨rfl, rfl, rfl⟩

/-- Claim C4, witness: the amended theorem applied to an object whose
`"records"` value is a list without `"devices"`; the list is returned. -/
theorem claim_c4_witness :
    normalizeData (.obj [("records", .arr [.num 3])]) = .ok (.arr [.num 3]) :=
  (claim_c4_normalize_shape [("records", .arr [.num 3])]).2.1 rfl
    (.arr [.num 3]) rfl rfl

/-!
Claim C2.
-/

/-- Claim C2 is false of the code: `sensor.py` imports `CONF_GRID_INSTANCE`,
`DEFAULT_SCAN_INTERVAL_SYSTEM_OVERVIEW` and `DEFAULT_SCAN_INTERVAL_DIAGNOSTICS`
from `.const`, but `const.py` binds none of them, so `from .const import (...)`
raises `ImportError` before any coordinator can be constructed. -/
theorem claim_c2_missing_const_names :
    "CONF_GRID_INSTANCE" ∈ sensorRequiredConstNames ∧
    "DEFAULT_SCAN_INTERVAL_SYSTEM_OVERVIEW" ∈ sensorRequiredConstNames ∧
    "DEFAULT_SCAN_INTERVAL_DIAGNOSTICS" ∈ sensorRequiredConstNames ∧
    "CONF_GRID_INSTANCE" ∉ constDefinedNames ∧
    "DEFAULT_SCAN_INTERVAL_SYSTEM_OVERVIEW" ∉ constDefinedNames ∧
    "DEFAULT_SCAN_INTERVAL_DIAGNOSTICS" ∉ constDefinedNames := by
  decide

/-!
Claim C5.
-/

/-- Claim C5: when the coordinator's data maps `"data"` to a map in which
the configured attribute id maps to an object whose `"valueFloat"` is `v`,
`VrmBatterySummarySensor.native_value` returns exactly `v`. -/
theorem claim_c5_summary_extracts_value
    (kvs m a : List (String × JVal)) (d : String) (v : JVal)
    (hdata : alookup kvs "data" = some (.obj m))
    (hattr : alookup m d = some (.obj a))
    (hv : alookup a "valueFloat" = some v) :
    batterySummaryNativeValue (.obj kvs) d = .ok v := by
  simp only [batterySummaryNativeValue, truthy_of_lookup hdata, if_true,
    pyGetD, pyGet, hdata, hattr, hv, Option.getD, exbind_ok]

/-- Claim C5, witness: a concrete snapshot with `valueFloat` 77 under
attribute id `"51"`. -/
theorem claim_c5_witness :
    batterySummaryNativeValue
      (.obj [("data", .obj [("51", .obj [("valueFloat", .num 77)])])]) "51" =
      .ok (.num 77) :=
  claim_c5_summary_extracts_value _ _ _ _ _ rfl rfl rfl

/-!
Claim C3.
-/

/-- Claim C3: `VrmBatteryPowerSensor.native_value` is `round(V * I, 2)` when
attribute `"47"` has `valueFloat` `V` and attribute `"49"` has `valueFloat`
`I`; it is `0.0` when the coordinator has no (falsy) data, and `0.0` when
the data map is present but either `valueFloat` comes back `None` while the
other lookup succeeds. -/
theorem claim_c3_battery_power :
    (∀ coordData : JVal, coordData.truthy = false →
        batteryPowerNativeValue coordData = .ok (.num 0)) ∧
    (∀ (kvs m a47 a49 : List (String × JVal)) (V I : ℚ),
      alookup kvs "data" = some (.obj m) →
      alookup m "47" = some (.obj a47) →
      alookup a47 "valueFloat" = some (.num V) →
      alookup m "49" = some (.obj a49) →
      alookup a49 "valueFloat" = some (.num I) →
      batteryPowerNativeValue (.obj kvs) = .ok (.num (pyRoundTo 2 (V * I)))) ∧
    (∀ (kvs m : List (String × JVal)),
      alookup kvs "data" = some (.obj m) →
      (pyGet ((alookup m "47").getD (.obj [])) "valueFloat" = .ok .null ∧
          (∃ x, pyGet ((alookup m "49").getD (.obj [])) "valueFloat" = .ok x) ∨
        pyGet ((alookup m "49").getD (.obj [])) "valueFloat" = .ok .null ∧
          (∃ x, pyGet ((alookup m "47").getD (.obj [])) "valueFloat" = .ok x)) →
      batteryPowerNativeValue (.obj kvs) = .ok (.num 0)) := by
  refine ⟨?_, ?_, ?_⟩
  · intro coordData h
    simp [batteryPowerNativeValue, h]
  · intro kvs m a47 a49 V I hdata h47 hv h49 hi
    simp only [batteryPowerNativeValue, truthy_of_lookup hdata, if_true,
      pyGetD, pyGet, hdata, h47, hv, h49, hi, Option.getD, exbind_ok,
      JVal.isNull, toNum?, Bool.or_false, Bool.false_or]
    simp
  · intro kvs m hdata hcase
    rcases hcase with ⟨h0, x, hx⟩ | ⟨h0, x, hx⟩ <;>
      simp only [batteryPowerNativeValue, truthy_of_lookup hdata, if_true,
        pyGetD, pyGet, hdata, Option.getD, exbind_ok] at h0 hx ⊢ <;>
      rw [h0, hx] <;>
      simp [exbind_ok, JVal.isNull]

/-- Claim C3, witness: voltage 50, current 2 gives `round(50 * 2, 2)`. -/
theorem claim_c3_witness :
    batteryPowerNativeValue
      (.obj [("data", .obj
        [ ("47", .obj [("valueFloat", .num 50)])
        , ("49", .obj [("valueFloat", .num 2)]) ])]) =
      .ok (.num (pyRoundTo 2 (50 * 2))) :=
  claim_c3_battery_power.2.1 _ _ _ _ 50 2 rfl rfl rfl rfl rfl

/-!
Claim C6.
-/

/-- A benign attribute's extracted `valueFloat` is `None` or a number. -/
theorem benignAttr_vf (m : List (String × JVal)) (i : String)
    (h : benignAttr m i = true) :
    pyGet ((alookup m i).getD (.obj [])) "valueFloat" = .ok .null ∨
    ∃ q : ℚ, pyGet ((alookup m i).getD (.obj [])) "valueFloat" = .ok (.num q) := by
  unfold benignAttr at h
  cases hl : (alookup m i).getD (.obj []) with
  | obj a =>
    rw [hl] at h
    simp only [] at h
    simp only [hl, pyGet, pyGetD]
    cases hg : (alookup a "valueFloat").getD .null <;> rw [hg] at h <;>
      simp [vfShape] at h <;> simp [hg]
  | null => rw [hl] at h; simp at h
  | b x => rw [hl] at h; simp at h
  | num q => rw [hl] at h; simp at h
  | str s => rw [hl] at h; simp at h
  | arr xs => rw [hl] at h; simp at h

/-- An absent attribute's extracted `valueFloat` is `None`. -/
theorem absent_attr_vf (m : List (String × JVal)) (i : String)
    (h : alookup m i = none) :
    pyGet ((alookup m i).getD (.obj [])) "valueFloat" = .ok .null := by
  simp [h, pyGet, pyGetD, alookup]

/-- Claim C6: documented defaults for missing fields.
`VrmBatterySummarySensor.native_value` is `None` for falsy coordinator data
and `None` when the attribute id is absent from the data map;
`VrmOverallStatsSensor.native_value` is `None` for falsy coordinator data
and `0.0` when the path walk fails (in particular when a key along the path
is absent); `VrmBatteryPowerSensor.native_value` is `0.0` when an input
attribute is absent (the other input being absent, `null` or numeric). -/
theorem claim_c6_missing_field_defaults :
    (∀ (coordData : JVal) (d : String), coordData.truthy = false →
        batterySummaryNativeValue coordData d = .ok .null) ∧
    (∀ (kvs m : List (String × JVal)) (d : String),
      alookup kvs "data" = some (.obj m) → alookup m d = none →
        batterySummaryNativeValue (.obj kvs) d = .ok .null) ∧
    (∀ (coordData : JVal) (path : List String), coordData.truthy = false →
        overallStatsNativeValue coordData path = .null) ∧
    (∀ (coordData : JVal) (path : List String), coordData.truthy = true →
      walkPath coordData path = none →
        overallStatsNativeValue coordData path = .num 0) ∧
    (∀ (kvs m : List (String × JVal)),
      alookup kvs "data" = some (.obj m) →
      benignAttr m "47" = true → benignAttr m "49" = true →
      (alookup m "47" = none ∨ alookup m "49" = none) →
        batteryPowerNativeValue (.obj kvs) = .ok (.num 0)) := by
  refine ⟨?_, ?_, ?_, ?_, ?_⟩
  · intro coordData d h
    simp [batterySummaryNativeValue, h]
  · intro kvs m d hdata habs
    simp only [batterySummaryNativeValue, truthy_of_lookup hdata, if_true,
      pyGetD, pyGet, hdata, habs, Option.getD, exbind_ok, alookup]
  · intro coordData path h
    simp [overallStatsNativeValue, h]
  · intro coordData path ht hw
    simp [overallStatsNativeValue, ht, hw]
  · intro kvs m hdata h47 h49 habs
    have v47 := benignAttr_vf m "47" h47
    have v49 := benignAttr_vf m "49" h49
    have hnull : pyGet ((alookup m "47").getD (.obj [])) "valueFloat" =
        .ok .null ∨
        pyGet ((alookup m "49").getD (.obj [])) "valueFloat" = .ok .null := by
      cases habs with
      | inl h => exact Or.inl (absent_attr_vf m "47" h)
      | inr h => exact Or.inr (absent_attr_vf m "49" h)
    rcases v47 with hv47 | ⟨q47, hv47⟩ <;>
      rcases v49 with hv49 | ⟨q49, hv49⟩ <;>
      simp only [batteryPowerNativeValue, truthy_of_lookup hdata, if_true,
        pyGetD, hdata, Option.getD_some, exbind_ok] <;>
      rw [hv47, exbind_ok, hv49, exbind_ok]
    · simp [JVal.isNull]
    · simp [JVal.isNull]
    · simp [JVal.isNull]
    · rcases hnull with hn | hn
      · rw [hv47] at hn
        simp at hn
      · rw [hv49] at hn
        simp at hn

/-- Claim C6, witness: concrete instances of each default. -/
theorem claim_c6_witness :
    batterySummaryNativeValue (.obj [("data", .obj [])]) "51" = .ok .null ∧
    overallStatsNativeValue (.obj [("today", .obj [])]) ["today", "totals"] =
      .num 0 ∧
    batteryPowerNativeValue (.obj [("data", .obj [])]) = .ok (.num 0) :=
  ⟨claim_c6_missing_field_defaults.2.1 _ [] "51" rfl rfl,
   claim_c6_missing_field_defaults.2.2.2.1 _ ["today", "totals"] rfl rfl,
   claim_c6_missing_field_defaults.2.2.2.2 _ [] rfl rfl rfl (Or.inl rfl)⟩

/-!
Claim C8.
-/

/-- Claim C8: a poll consumes exactly one GET of the fixed base URL composed
with the site id and endpoint, with the bearer-style token header and the
fixed 15-second timeout; a client/network error surfaces as `UpdateFailed`
from that single request (the embedding is single-shot by construction from
the straight-line source, so no retry exists). -/
theorem claim_c8_single_request (siteId token endpoint : String)
    (respond : VrmRequest → HttpResult) :
    pollOnce siteId token endpoint respond =
      updateData (respond (buildVrmRequest siteId token endpoint)) ∧
    (buildVrmRequest siteId token endpoint).url =
      "https://vrmapi.victronenergy.com/v2/installations/" ++ siteId ++ "/"
        ++ endpoint ∧
    (buildVrmRequest siteId token endpoint).authHeaderName =
      "X-Authorization" ∧
    (buildVrmRequest siteId token endpoint).authHeaderValue =
      "Token " ++ token ∧
    (buildVrmRequest siteId token endpoint).timeoutSeconds = 15 ∧
    (respond (buildVrmRequest siteId token endpoint) = .clientError →
      pollOnce siteId token endpoint respond = .error ()) := by
  refine ⟨rfl, rfl, rfl, rfl, rfl, ?_⟩
  intro h
  simp [pollOnce, h, updateData]

/-- Claim C8, witness: a transport that always fails the connection makes
the poll fail. -/
theorem claim_c8_witness :
    pollOnce "123" "tok" "overallstats" (fun _ => .clientError) =
      .error () :=
  (claim_c8_single_request "123" "tok" "overallstats"
    (fun _ => .clientError)).2.2.2.2.2 rfl

/-!
Claim C9.
-/

/-- A token qualifies exactly when its stripped text parses as an integer
`>= 0`. -/
theorem instanceIdOfToken_eq_some (part : List Char) (n : ℤ) :
    instanceIdOfToken? part = some n ↔
      pyParseIntTok? part = some n ∧ 0 ≤ n := by
  unfold instanceIdOfToken?
  cases h : pyParseIntTok? part with
  | none => simp
  | some m =>
    by_cases hm : 0 ≤ m
    · simp only [hm, if_true, Option.some_inj]
      constructor
      · rintro rfl
        exact ⟨rfl, hm⟩
      · rintro ⟨hmn, _⟩
        have : m = n := by simpa using hmn
        exact this
    · simp only [hm, if_false]
      constructor
      · rintro ⟨⟩
      · rintro ⟨hmn, hn⟩
        apply absurd _ hm
        have : m = n := by simpa using hmn
        exact this ▸ hn

/-- Claim C9: `_parse_instance_ids` returns a strictly increasing (hence
duplicate-free) list; a value is in the output exactly when it is `>= 0`
and some comma-separated token of the input parses to it (so qualifying
tokens appear exactly once and failing or negative tokens are dropped);
and the empty string yields the empty list. -/
theorem claim_c9_parse_instance_ids (s : String) :
    (s = "" → pyParseInstanceIds s = []) ∧
    List.Pairwise (· < ·) (pyParseInstanceIds s) ∧
    (∀ n : ℤ, n ∈ pyParseInstanceIds s ↔
      0 ≤ n ∧ ∃ p ∈ pySplitComma s.toList, pyParseIntTok? p = some n) := by
  refine ⟨fun h => by simp [pyParseInstanceIds, h], ?_, ?_⟩
  · unfold pyParseInstanceIds
    split
    · exact List.Pairwise.nil
    · set l := ((pySplitComma s.toList).filterMap instanceIdOfToken?).dedup
        with hl
      have htrans : ∀ a b c : ℤ, (fun a b : ℤ => decide (a ≤ b)) a b = true →
          (fun a b : ℤ => decide (a ≤ b)) b c = true →
          (fun a b : ℤ => decide (a ≤ b)) a c = true := by
        intro a b c hab hbc
        simp only [decide_eq_true_eq] at *
        omega
      have htot : ∀ a b : ℤ, ((fun a b : ℤ => decide (a ≤ b)) a b ||
          (fun a b : ℤ => decide (a ≤ b)) b a) = true := by
        intro a b
        simp only [Bool.or_eq_true, decide_eq_true_eq]
        omega
      have hsorted := List.sorted_mergeSort htrans htot l
      have hnodup : (l.mergeSort (fun a b => a ≤ b)).Nodup :=
        (List.mergeSort_perm l _).nodup_iff.mpr (List.nodup_dedup _)
      exact (hsorted.and hnodup).imp (fun hab => by
        simp only [decide_eq_true_eq] at hab
        exact lt_of_le_of_ne hab.1 hab.2)
  · intro n
    unfold pyParseInstanceIds
    split
    case isTrue h =>
      simp only [List.not_mem_nil, false_iff, not_and]
      intro hn
      rintro ⟨p, hp, hparse⟩
      rw [h] at hp
      have hsplit : pySplitComma "".toList = [[]] := rfl
      rw [hsplit, List.mem_singleton] at hp
      subst hp
      have hnone : pyParseIntTok? ([] : List Char) = none := rfl
      rw [hnone] at hparse
      exact Option.noConfusion hparse
    case isFalse h =>
      rw [List.mem_mergeSort, List.mem_dedup, List.mem_filterMap]
      constructor
      · rintro ⟨p, hp, hpn⟩
        rcases (instanceIdOfToken_eq_some p n).mp hpn with ⟨hparse, hn⟩
        exact ⟨hn, p, hp, hparse⟩
      · rintro ⟨hn, p, hp, hparse⟩
        exact ⟨p, hp, (instanceIdOfToken_eq_some p n).mpr ⟨hparse, hn⟩⟩

unseal List.merge List.mergeSort in
/-- Claim C9, witness: the empty string gives the empty list (by the
theorem), and a concrete mixed input keeps each qualifying token once, in
increasing order, dropping the unparseable and negative tokens. -/
theorem claim_c9_witness :
    pyParseInstanceIds "" = [] ∧
    pyParseInstanceIds "2, 1, x, 2, -3" = [1, 2] :=
  ⟨(claim_c9_parse_instance_ids "").1 rfl, by decide⟩

/-!
Claim C7.
-/

/-- A benign attribute's extracted `valueFloat` is `None` (and then the
claim-side numeric view is `none`) or a number (and then the numeric view is
that number). -/
theorem benign_vf_cases (m : List (String × JVal)) (i : String)
    (h : benignAttr m i = true) :
    (pyGet ((alookup m i).getD (.obj [])) "valueFloat" = .ok .null ∧
      vfNum? m i = none) ∨
    (∃ q : ℚ, pyGet ((alookup m i).getD (.obj [])) "valueFloat" =
        .ok (.num q) ∧ vfNum? m i = some q) := by
  unfold benignAttr at h
  cases hm : alookup m i with
  | none =>
    left
    exact ⟨rfl, by simp [vfNum?, hm]⟩
  | some a =>
    simp only [hm, Option.getD_some] at h
    cases a with
    | obj aa =>
      simp only [] at h
      simp only [Option.getD_some, pyGet, pyGetD]
      cases hv : alookup aa "valueFloat" with
      | none =>
        left
        exact ⟨by simp [hv], by simp [vfNum?, hm, hv]⟩
      | some w =>
        simp only [hv, Option.getD_some] at h
        cases w with
        | null => exact Or.inl ⟨by simp [hv], by simp [vfNum?, hm, hv]⟩
        | num q => exact Or.inr ⟨q, by simp [hv], by simp [vfNum?, hm, hv]⟩
        | b x => simp [vfShape] at h
        | str s => simp [vfShape] at h
        | arr xs => simp [vfShape] at h
        | obj o => simp [vfShape] at h
    | null => simp at h
    | b x => simp at h
    | num q => simp at h
    | str s => simp at h
    | arr xs => simp at h

/-- A falsy coordinator value contributes nothing on the claim side. -/
theorem falsy_claimBattPower (c : JVal) (h : c.truthy = false) :
    claimBattPower? c = none := by
  cases c with
  | obj kvs =>
    cases kvs with
    | nil => rfl
    | cons x xs => simp [JVal.truthy] at h
  | null => rfl
  | b x =>
    cases x
    · rfl
    · simp [JVal.truthy] at h
  | num q => rfl
  | str s => rfl
  | arr xs => rfl

/-- Unpack a truthy benign coordinator value into its dict, its data map and
the benignness of the two power attributes. -/
theorem benignBatt_elim (c : JVal) (hb : benignBatt c = true)
    (ht : c.truthy = true) :
    ∃ kvs m, c = .obj kvs ∧ (alookup kvs "data").getD (.obj []) = .obj m ∧
      benignAttr m "47" = true ∧ benignAttr m "49" = true := by
  unfold benignBatt at hb
  rw [ht] at hb
  simp only [if_true] at hb
  cases c with
  | obj kvs =>
    simp only [] at hb
    cases hd : (alookup kvs "data").getD (.obj []) with
    | obj m =>
      rw [hd] at hb
      simp only [Bool.and_eq_true] at hb
      exact ⟨kvs, m, rfl, hd, hb.1, hb.2⟩
    | null => rw [hd] at hb; simp at hb
    | b x => rw [hd] at hb; simp at hb
    | num q => rw [hd] at hb; simp at hb
    | str s => rw [hd] at hb; simp at hb
    | arr xs => rw [hd] at hb; simp at hb
  | null => simp at hb
  | b x => simp at hb
  | num q => simp at hb
  | str s => simp at hb
  | arr xs => simp at hb

/-- One step of the total-power loop over a benign coordinator adds the
claim-side contribution and records whether one was present. -/
theorem battTotalLoop_cons_benign (c : JVal) (rest : List JVal) (total : ℚ)
    (hd : Bool) (h : benignBatt c = true) :
    battTotalLoop (c :: rest) total hd =
      battTotalLoop rest (total + (claimBattPower? c).getD 0)
        (hd || (claimBattPower? c).isSome) := by
  by_cases ht : c.truthy = true
  · rcases benignBatt_elim c h ht with ⟨kvs, m, rfl, hdm, h47, h49⟩
    have hpc : claimBattPower? (.obj kvs) =
        (match vfNum? m "47", vfNum? m "49" with
          | some v, some i => some (v * i)
          | _, _ => none) := by
      simp only [claimBattPower?, hdm]
    simp only [battTotalLoop, ht, if_true, pyGetD, hdm, exbind_ok]
    rcases benign_vf_cases m "47" h47 with ⟨hv47, hn47⟩ | ⟨q47, hv47, hn47⟩ <;>
      rcases benign_vf_cases m "49" h49 with ⟨hv49, hn49⟩ | ⟨q49, hv49, hn49⟩ <;>
      rw [hv47, exbind_ok, hv49, exbind_ok] <;>
      simp only [hpc, hn47, hn49, JVal.isNull, Bool.or_true, Bool.true_or,
        Bool.or_false, Bool.false_or, if_true, toNum?, Option.getD_none,
        add_zero, Option.isSome_none, Option.isSome_some,
        Option.getD_some]
    all_goals try rfl
  · have ht' : c.truthy = false := by simpa using ht
    simp only [battTotalLoop, ht', Bool.false_eq_true, if_false,
      falsy_claimBattPower c ht', Option.getD_none, add_zero,
      Option.isSome_none, Bool.or_false]

/-- The total-power loop over benign coordinators computes the sum of the
claim-side contributions and whether any coordinator contributed. -/
theorem battTotalLoop_spec (coords : List JVal)
    (h : ∀ c ∈ coords, benignBatt c = true) (total : ℚ) (hd : Bool) :
    battTotalLoop coords total hd =
      .ok (total + (coords.filterMap claimBattPower?).sum,
        hd || coords.any (fun c => (claimBattPower? c).isSome)) := by
  induction coords generalizing total hd with
  | nil => simp [battTotalLoop]
  | cons c rest ih =>
    rw [battTotalLoop_cons_benign c rest total hd (h c (by simp))]
    rw [ih (fun x hx => h x (by simp [hx]))]
    cases hc : claimBattPower? c with
    | none => simp [List.filterMap_cons, hc]
    | some q => simp [List.filterMap_cons, hc, add_assoc]

/-- Some coordinator contributes iff not all contribute nothing. -/
theorem any_isSome_eq_not_all_isNone (coords : List JVal) :
    coords.any (fun c => (claimBattPower? c).isSome) =
      !coords.all (fun c => (claimBattPower? c).isNone) := by
  induction coords with
  | nil => rfl
  | cons c rest ih =>
    cases hc : claimBattPower? c <;>
      simp [List.any_cons, List.all_cons, hc, ih]

/-- Claim C7: `VrmBatteriesTotalPowerSensor.native_value` is `0.0` when no
coordinator contributes, and otherwise `round` (to 2 decimals) of the sum,
over exactly those coordinators whose data carries numeric `valueFloat`s
for both attribute ids `"47"` and `"49"`, of voltage times current.  The
hypothesis restricts to benign data shapes: on non-benign shapes the
`total_power += voltage * current` of the source raises out of the
property instead of contributing. -/
theorem claim_c7_batteries_total (coords : List JVal)
    (h : ∀ c ∈ coords, benignBatt c = true) :
    batteriesTotalPowerNativeValue coords =
      .ok (if coords.all (fun c => (claimBattPower? c).isNone) then 0
        else pyRoundTo 2 ((coords.filterMap claimBattPower?).sum)) := by
  unfold batteriesTotalPowerNativeValue
  rw [battTotalLoop_spec coords h 0 false]
  simp only [exbind_ok, zero_add, Bool.false_or]
  rw [any_isSome_eq_not_all_isNone]
  cases hall : coords.all (fun c => (claimBattPower? c).isNone) <;> simp

/-- Claim C7, witness: one contributing coordinator (50 V, 2 A) and one
with no data. -/
theorem claim_c7_witness :
    batteriesTotalPowerNativeValue
      [ JVal.obj [("data", .obj
          [ ("47", .obj [("valueFloat", .num 50)])
          , ("49", .obj [("valueFloat", .num 2)]) ])]
      , JVal.null ] =
      .ok (if ([ JVal.obj [("data", .obj
            [ ("47", .obj [("valueFloat", .num 50)])
            , ("49", .obj [("valueFloat", .num 2)]) ])]
          , JVal.null ] : List JVal).all (fun c => (claimBattPower? c).isNone)
        then 0
        else pyRoundTo 2 ((([ JVal.obj [("data", .obj
            [ ("47", .obj [("valueFloat", .num 50)])
            , ("49", .obj [("valueFloat", .num 2)]) ])]
          , JVal.null ] : List JVal).filterMap claimBattPower?).sum)) :=
  claim_c7_batteries_total _ (by decide)

/-!
Claim C10.
-/

/-- A JSON value equals at most one integer under Python equality. -/
theorem pyEqInt_unique (j : JVal) (a b : ℤ) (ha : pyEqInt j a = true)
    (hb : pyEqInt j b = true) : a = b := by
  unfold pyEqInt at ha hb
  cases h : toNum? j with
  | none => rw [h] at ha; cases ha
  | some q =>
    rw [h] at ha hb
    simp only [beq_iff_eq] at ha hb
    exact_mod_cast ha ▸ hb

/-- One step of the grid loop over a dict record overwrites each phase
accumulator with that record's claim-side phase value when present, and
records whether any phase matched. -/
theorem gridLoop_cons_obj (gid : ℤ) (kvs : List (String × JVal))
    (rest : List JVal) (l1 l2 l3 : ℚ) (hd : Bool) :
    gridLoop gid (.obj kvs :: rest) l1 l2 l3 hd =
      gridLoop gid rest
        ((phaseMatch gid 379 (.obj kvs)).getD l1)
        ((phaseMatch gid 380 (.obj kvs)).getD l2)
        ((phaseMatch gid 381 (.obj kvs)).getD l3)
        (hd || ((phaseMatch gid 379 (.obj kvs)).isSome ||
          (phaseMatch gid 380 (.obj kvs)).isSome ||
          (phaseMatch gid 381 (.obj kvs)).isSome)) := by
  have hconv : ∀ b : Bool, ¬b = true → b = false := fun b h => by simpa using h
  simp only [gridLoop, pyGet, pyGetD, exbind_ok]
  by_cases hinst : pyEqInt ((alookup kvs "instance").getD .null) gid = true
  case neg =>
    simp only [hconv _ hinst, phaseMatch, Bool.false_and, Bool.or_false,
      Option.getD_none, Option.isSome_none]
    simp
  case pos =>
    simp only [hinst, if_true, exbind_ok]
    by_cases h379 : pyEqInt ((alookup kvs "idDataAttribute").getD .null) 379 = true
    · have h380 : pyEqInt ((alookup kvs "idDataAttribute").getD .null) 380 = false := by
        by_contra hc
        exact absurd (pyEqInt_unique _ _ _ h379 (by simpa using hc)) (by decide)
      have h381 : pyEqInt ((alookup kvs "idDataAttribute").getD .null) 381 = false := by
        by_contra hc
        exact absurd (pyEqInt_unique _ _ _ h379 (by simpa using hc)) (by decide)
      simp only [phaseMatch, hinst, h379, h380, h381, Bool.and_self,
        Bool.and_false, Bool.true_and, Bool.and_true, if_true, if_false,
        Bool.true_or, Bool.or_true, Bool.or_false, Bool.false_or, exbind_ok]
      cases hf : pyFloat? ((alookup kvs "rawValue").getD .null) with
      | none => simp [hf]
      | some q => simp [hf]
    · have h379f := hconv _ h379
      by_cases h380 : pyEqInt ((alookup kvs "idDataAttribute").getD .null) 380 = true
      · have h381 : pyEqInt ((alookup kvs "idDataAttribute").getD .null) 381 = false := by
          by_contra hc
          exact absurd (pyEqInt_unique _ _ _ h380 (by simpa using hc)) (by decide)
        simp only [phaseMatch, hinst, h379f, h380, h381, Bool.and_self,
          Bool.and_false, Bool.true_and, Bool.and_true, if_true, if_false,
          Bool.true_or, Bool.or_true, Bool.or_false, Bool.false_or, exbind_ok]
        cases hf : pyFloat? ((alookup kvs "rawValue").getD .null) with
        | none => simp [hf]
        | some q => simp [hf]
      · have h380f := hconv _ h380
        by_cases h381 : pyEqInt ((alookup kvs "idDataAttribute").getD .null) 381 = true
        · simp only [phaseMatch, hinst, h379f, h380f, h381, Bool.and_self,
            Bool.and_false, Bool.true_and, Bool.and_true, if_true, if_false,
            Bool.true_or, Bool.or_true, Bool.or_false, Bool.false_or,
            exbind_ok]
          cases hf : pyFloat? ((alookup kvs "rawValue").getD .null) with
          | none => simp [hf]
          | some q => simp [hf]
        · have h381f := hconv _ h381
          simp only [phaseMatch, hinst, h379f, h380f, h381f, Bool.true_and,
            Bool.and_false, Bool.or_false, Option.getD_none,
            Option.isSome_none]
          simp

/-- Folding one record into a phase accumulator realizes the last-match
semantics of `lastPhase`. -/
theorem lastPhase_cons_getD (gid aid : ℤ) (item : JVal) (rest : List JVal)
    (l : ℚ) :
    (lastPhase gid aid (item :: rest)).getD l =
      (lastPhase gid aid rest).getD ((phaseMatch gid aid item).getD l) := by
  cases h : lastPhase gid aid rest with
  | none => rw [lastPhase, h]; simp
  | some q => rw [lastPhase, h]; simp

/-- A phase has a last match exactly when some record matches it. -/
theorem lastPhase_isSome (gid aid : ℤ) (items : List JVal) :
    (lastPhase gid aid items).isSome =
      items.any (fun i => (phaseMatch gid aid i).isSome) := by
  induction items with
  | nil => rfl
  | cons item rest ih =>
    unfold lastPhase
    cases h : lastPhase gid aid rest with
    | none =>
      rw [h] at ih
      simp [List.any_cons, ← ih, Bool.or_comm]
    | some q =>
      rw [h] at ih
      simp [List.any_cons, ← ih]

/-- The grid loop over dict records computes, per phase, the parsed
`rawValue` of the last matching record (defaulting to the initial
accumulator), and whether any record matched any phase. -/
theorem gridLoop_spec (gid : ℤ) (items : List JVal)
    (h : ∀ i ∈ items, i.isObj = true) (l1 l2 l3 : ℚ) (hd : Bool) :
    gridLoop gid items l1 l2 l3 hd =
      .ok ((lastPhase gid 379 items).getD l1,
        (lastPhase gid 380 items).getD l2,
        (lastPhase gid 381 items).getD l3,
        hd || items.any (fun i => (phaseMatch gid 379 i).isSome ||
          (phaseMatch gid 380 i).isSome ||
          (phaseMatch gid 381 i).isSome)) := by
  induction items generalizing l1 l2 l3 hd with
  | nil => simp [gridLoop, lastPhase]
  | cons item rest ih =>
    obtain ⟨kvs, rfl⟩ : ∃ kvs, item = .obj kvs := by
      have := h item (by simp)
      cases item <;> simp_all [JVal.isObj]
    rw [gridLoop_cons_obj, ih (fun x hx => h x (by simp [hx]))]
    simp [lastPhase_cons_getD, List.any_cons, Bool.or_assoc]

/-- `List.any` distributes over a three-way disjunction. -/
theorem any_or3 (l : List JVal) (f g k : JVal → Bool) :
    l.any (fun x => f x || g x || k x) = (l.any f || l.any g || l.any k) := by
  induction l with
  | nil => rfl
  | cons x xs ih =>
    simp only [List.any_cons, ih]
    cases f x <;> cases g x <;> cases k x <;> simp

/-- Claim C10: `VrmGridTotalPowerSensor.native_value` is `0.0` for falsy
coordinator data and for truthy non-list data; for a list of dict records
it is `0.0` when no phase (attribute ids 379, 380, 381, filtered to the
sensor's grid instance) has a matching record with parseable `rawValue`,
and otherwise `round(l1 + l2 + l3, 2)` where each phase value is the parsed
`rawValue` of the LAST matching record in list order (later duplicates
overwrite, they are not added), defaulting to `0.0` per phase. -/
theorem claim_c10_grid_total_power (gid : ℤ) :
    (∀ coordData : JVal, coordData.truthy = false →
        gridTotalPowerNativeValue gid coordData = .ok 0) ∧
    (∀ coordData : JVal, coordData.truthy = true →
      (∀ xs : List JVal, coordData ≠ .arr xs) →
        gridTotalPowerNativeValue gid coordData = .ok 0) ∧
    (∀ items : List JVal, (∀ i ∈ items, i.isObj = true) →
      gridTotalPowerNativeValue gid (.arr items) =
        .ok (if (lastPhase gid 379 items).isNone = true ∧
              (lastPhase gid 380 items).isNone = true ∧
              (lastPhase gid 381 items).isNone = true
          then 0
          else pyRoundTo 2 ((lastPhase gid 379 items).getD 0 +
            (lastPhase gid 380 items).getD 0 +
            (lastPhase gid 381 items).getD 0))) := by
  refine ⟨?_, ?_, ?_⟩
  · intro d h
    simp [gridTotalPowerNativeValue, h]
  · intro d ht hne
    cases d with
    | arr xs => exact absurd rfl (hne xs)
    | null => simp [JVal.truthy] at ht
    | b x => simp [gridTotalPowerNativeValue, ht]
    | num q => simp [gridTotalPowerNativeValue, ht]
    | str s => simp [gridTotalPowerNativeValue, ht]
    | obj kvs => simp [gridTotalPowerNativeValue, ht]
  · intro items hobj
    by_cases hemp : items = []
    · subst hemp
      simp [gridTotalPowerNativeValue, JVal.truthy, lastPhase]
    · have ht : (JVal.arr items).truthy = true := by
        cases items with
        | nil => exact absurd rfl hemp
        | cons a as => rfl
      simp only [gridTotalPowerNativeValue, ht, if_true]
      rw [gridLoop_spec gid items hobj 0 0 0 false]
      simp only [exbind_ok, Bool.false_or]
      rw [any_or3, ← lastPhase_isSome, ← lastPhase_isSome, ← lastPhase_isSome]
      cases h379 : lastPhase gid 379 items <;>
        cases h380 : lastPhase gid 380 items <;>
        cases h381 : lastPhase gid 381 items <;>
        simp

/-- Claim C10, witness: falsy data gives `0.0` (by the theorem), and on a
two-record list for the same instance and phase 379 the last record wins. -/
theorem claim_c10_witness :
    gridTotalPowerNativeValue 30 .null = .ok 0 ∧
    gridTotalPowerNativeValue 30 (.arr
      [ .obj [ ("instance", .num 30), ("idDataAttribute", .num 379)
             , ("rawValue", .num 100) ]
      , .obj [ ("instance", .num 30), ("idDataAttribute", .num 379)
             , ("rawValue", .num 250) ] ]) =
      .ok (if (lastPhase 30 379
              [ JVal.obj [ ("instance", .num 30), ("idDataAttribute", .num 379)
                     , ("rawValue", .num 100) ]
              , JVal.obj [ ("instance", .num 30), ("idDataAttribute", .num 379)
                     , ("rawValue", .num 250) ] ]).isNone = true ∧
            (lastPhase 30 380
              [ JVal.obj [ ("instance", .num 30), ("idDataAttribute", .num 379)
                     , ("rawValue", .num 100) ]
              , JVal.obj [ ("instance", .num 30), ("idDataAttribute", .num 379)
                     , ("rawValue", .num 250) ] ]).isNone = true ∧
            (lastPhase 30 381
              [ JVal.obj [ ("instance", .num 30), ("idDataAttribute", .num 379)
                     , ("rawValue", .num 100) ]
              , JVal.obj [ ("instance", .num 30), ("idDataAttribute", .num 379)
                     , ("rawValue", .num 250) ] ]).isNone = true
        then 0
        else pyRoundTo 2 ((lastPhase 30 379
              [ JVal.obj [ ("instance", .num 30), ("idDataAttribute", .num 379)
                     , ("rawValue", .num 100) ]
              , JVal.obj [ ("instance", .num 30), ("idDataAttribute", .num 379)
                     , ("rawValue", .num 250) ] ]).getD 0 +
          (lastPhase 30 380
              [ JVal.obj [ ("instance", .num 30), ("idDataAttribute", .num 379)
                     , ("rawValue", .num 100) ]
              , JVal.obj [ ("instance", .num 30), ("idDataAttribute", .num 379)
                     , ("rawValue", .num 250) ] ]).getD 0 +
          (lastPhase 30 381
              [ JVal.obj [ ("instance", .num 30), ("idDataAttribute", .num 379)
                     , ("rawValue", .num 100) ]
              , JVal.obj [ ("instance", .num 30), ("idDataAttribute", .num 379)
                     , ("rawValue", .num 250) ] ]).getD 0)) :=
  ⟨(claim_c10_grid_total_power 30).1 .null rfl,
   (claim_c10_grid_total_power 30).2.2 _ (by decide)⟩
